import Mathlib

/-!
Verification of the kindergarten data-processing scripts (`get_geo.py`,
`parse_data.py`) against their natural-language specification.

The Python code is shallowly embedded: dictionaries become association
lists from `String` keys to values (Python `dict` preserves insertion
order and has unique keys; `dict.get`, `dict.__setitem__` and `in` are
modelled accordingly), the external geocoding API becomes an oracle
function passed as a parameter, and the two regular expressions used by
`parse_data.py` are hand-compiled into backtracking matchers over
`List Char` with the exact greedy semantics of Python's `re` module
(`\d` is modelled as the ASCII digits, the only digits occurring in the
data).  File system and console output are outside the model; the
in-memory transformations they serialize are modelled exactly.
-/

namespace School

/-- A JSON object with string-valued fields, e.g. one geocode record of
`data/geo.json` or one candidate returned by the geocoding API.  Python
dicts are modelled as insertion-ordered association lists. -/
abbrev GeoEntry := List (String × String)

/-- `d.get(k)` on a Python dict: the value at the first matching key, if any. -/
def dictGet {α : Type} (d : List (String × α)) (k : String) : Option α :=
  (d.find? (fun p => p.1 == k)).map (fun p => p.2)

/-- `d.get(k, default)` on a Python dict of strings. -/
def entryGet (e : GeoEntry) (k : String) (dflt : String) : String :=
  (dictGet e k).getD dflt

/-- `d[k] = v` on a Python dict: replace the value at an existing key in
place, otherwise append the new binding at the end. -/
def dictSet {α : Type} : List (String × α) → String → α → List (String × α)
  | [], k, v => [(k, v)]
  | p :: rest, k, v => if p.1 == k then (k, v) :: rest else p :: dictSet rest k v

/-- The on-disk geocode cache `data/geo.json`: a JSON object mapping an
entity name or home address to a geocode record. -/
abbrev Cache := List (String × GeoEntry)

/-- `PRECISE_LEVELS` from `get_geo.py`: the allow-list of acceptable
precision level tags. -/
def PRECISE_LEVELS : List String := ["兴趣点", "门牌号", "单元号", "楼层", "房间", "门址"]

/-- `HOME_ADDRESSES` from `get_geo.py`. -/
def HOME_ADDRESSES : List String := ["越秀·保利爱特城22栋", "中海誉东花园A7栋"]

/-- `r.get('level') in PRECISE_LEVELS` for a geocode record `r`
(a missing `level` field compares unequal to every list member). -/
def level_acceptable (r : GeoEntry) : Bool :=
  match dictGet r "level" with
  | some l => PRECISE_LEVELS.contains l
  | none => false

/-- `name_result and name_result.get('level') in PRECISE_LEVELS`:
the acceptability test applied to an optional query result. -/
def result_acceptable : Option GeoEntry → Bool
  | some r => level_acceptable r
  | none => false

/-- Python dict truthiness of an optional query result: `None` and the
empty dict are falsy, any non-empty dict is truthy.  This is the test
performed by `if address_result:` and `if name_result:`. -/
def py_truthy : Option GeoEntry → Bool
  | some r => !r.isEmpty
  | none => false

/-- `geocode_with_fallback(name, address, city)` from `get_geo.py`, with
`get_geocode` abstracted as the oracle `api` (queried string, city hint).
Step 1 queries by name and returns immediately on an acceptable level;
step 2 queries by address (when non-empty) and returns a truthy result
regardless of its level (`if address_result:`); step 3 falls back to a
truthy name result, acceptable or not (`if name_result:`); otherwise the
function returns `None`.  An empty-dict query result — reachable, since
`get_geocode` returns `data['geocodes'][0]` unguarded — is falsy, so
steps 2 and 3 treat it as no result and fall through. -/
def geocode_with_fallback (api : String → String → Option GeoEntry)
    (name address city : String) : Option GeoEntry :=
  let name_result := api name city
  if result_acceptable name_result then
    name_result
  else if address ≠ "" then
    let address_result := api address city
    if py_truthy address_result then address_result
    else if py_truthy name_result then name_result
    else none
  else if py_truthy name_result then name_result
  else none

/-- The number of `get_geocode` invocations performed by one
`geocode_with_fallback(name, address, city)` call: one for the name
query, plus one more when the address branch executes. -/
def geocode_with_fallback_calls (api : String → String → Option GeoEntry)
    (name address city : String) : Nat :=
  if result_acceptable (api name city) then 1
  else if address ≠ "" then 2
  else 1

/-- The cache-hit test of `geocode_kindergartens`:
`existing_data = geocodes.get(name)` is truthy (non-`None`, non-empty)
and its `level` is in `PRECISE_LEVELS`. -/
def cachedPrecisely (geocodes : Cache) (key : String) : Bool :=
  match dictGet geocodes key with
  | some e => !e.isEmpty && PRECISE_LEVELS.contains (entryGet e "level" "")
  | none => false

/-- A truthy cached entry whose `level` is not acceptable: the situation
in which `geocode_kindergartens` re-resolves an already-cached name. -/
def cachedImprecisely (geocodes : Cache) (key : String) : Bool :=
  match dictGet geocodes key with
  | some e => !e.isEmpty && !PRECISE_LEVELS.contains (entryGet e "level" "")
  | none => false

/-- The two fields of one element of `data/school.json` that
`geocode_kindergartens` reads (`name` is `kg.get('幼儿园名称','')`,
`address` is `kg.get('幼儿园地址','')`); the remaining record fields are
never touched by the geocoder. -/
structure Kindergarten where
  name : String
  address : String
deriving DecidableEq, Repr

/-- The body of the `geocode_kindergartens` loop for one record:
skip blank names, skip precise cache hits, otherwise resolve via
`geocode_with_fallback` and store any result.  Returns the updated cache
together with the number of external `get_geocode` calls made. -/
def geocode_kindergartens_step (api : String → String → Option GeoEntry)
    (geocodes : Cache) (kg : Kindergarten) : Cache × Nat :=
  if kg.name = "" then (geocodes, 0)
  else if cachedPrecisely geocodes kg.name then (geocodes, 0)
  else
    match geocode_with_fallback api kg.name kg.address "广州" with
    | some r => (dictSet geocodes kg.name r,
                 geocode_with_fallback_calls api kg.name kg.address "广州")
    | none => (geocodes, geocode_with_fallback_calls api kg.name kg.address "广州")

/-- The `geocode_kindergartens` loop over the loaded records (progress
printing and periodic `save_geocodes` checkpoints do not alter the
mapping and are outside the model). -/
def geocode_kindergartens_run (api : String → String → Option GeoEntry) :
    List Kindergarten → Cache → Cache × Nat
  | [], geocodes => (geocodes, 0)
  | kg :: rest, geocodes =>
    let step := geocode_kindergartens_step api geocodes kg
    let next := geocode_kindergartens_run api rest step.1
    (next.1, step.2 + next.2)

/-- The body of the `geocode_home_addresses` loop for one address:
`if address in geocodes: continue` skips on bare key membership,
otherwise a single direct `get_geocode(address, "广州")` call is made and
any result stored. -/
def geocode_home_addresses_step (api : String → String → Option GeoEntry)
    (geocodes : Cache) (address : String) : Cache × Nat :=
  if (dictGet geocodes address).isSome then (geocodes, 0)
  else
    match api address "广州" with
    | some r => (dictSet geocodes address r, 1)
    | none => (geocodes, 1)

/-- The `geocode_home_addresses` loop over a list of addresses. -/
def geocode_home_addresses_loop (api : String → String → Option GeoEntry) :
    List String → Cache → Cache × Nat
  | [], geocodes => (geocodes, 0)
  | address :: rest, geocodes =>
    let step := geocode_home_addresses_step api geocodes address
    let next := geocode_home_addresses_loop api rest step.1
    (next.1, step.2 + next.2)

/-- `geocode_home_addresses` processes exactly the fixed
`HOME_ADDRESSES` list. -/
def geocode_home_addresses_run (api : String → String → Option GeoEntry)
    (geocodes : Cache) : Cache × Nat :=
  geocode_home_addresses_loop api HOME_ADDRESSES geocodes

/-- The five-field projection built by `save_geocodes` for an entry that
contains a `location` key. -/
def clean_entry (data : GeoEntry) : GeoEntry :=
  [("province", entryGet data "province" ""),
   ("city", entryGet data "city" ""),
   ("district", entryGet data "district" ""),
   ("location", entryGet data "location" ""),
   ("level", entryGet data "level" "")]

/-- The per-entry branch of `save_geocodes`: entries holding a
`location` key are projected to the five canonical fields, all other
entries are kept verbatim (`isinstance(data, dict)` is always true in
this model, where every cache value is an object). -/
def save_entry (kv : String × GeoEntry) : String × GeoEntry :=
  if (dictGet kv.2 "location").isSome then (kv.1, clean_entry kv.2) else kv

/-- `save_geocodes`: the mapping written to `data/geo.json` (full
overwrite) for a given in-memory mapping. -/
def save_geocodes (geocodes : Cache) : Cache :=
  geocodes.map save_entry

/-- `load_existing_geocodes`: the parsed content of `data/geo.json`, or
the empty mapping when the file is absent or unreadable (modelled by a
`none` disk state). -/
def load_existing_geocodes (disk : Option Cache) : Cache :=
  disk.getD []

/-- One observable side effect of `get_geocode`: the HTTP request to the
geocoding endpoint, or a `time.sleep` suspension of the given number of
milliseconds.  Console prints are omitted. -/
inductive Effect where
  | httpGet (address city : String)
  | sleep (ms : Nat)
deriving DecidableEq, Repr

/-- The decoded JSON body of a geocoding API response: `status` flag,
`info` message and the candidate array (a missing or null `geocodes`
field is modelled as the empty, equally falsy, array). -/
structure AmapResponse where
  status : String
  info : String
  geocodes : List GeoEntry
deriving DecidableEq, Repr

/-- `get_geocode(address, city)` from `get_geo.py`, with the network
interaction abstracted into `resp` (`Except.error` covers a raised
request, HTTP-status or JSON-decoding exception).  Returns the Python
return value together with the ordered trace of external effects; the
`finally` block appends the 400 ms `time.sleep` on every path. -/
def get_geocode_run (resp : Except String AmapResponse)
    (address city : String) : Option GeoEntry × List Effect :=
  match resp with
  | .error _ => (none, [Effect.httpGet address city, Effect.sleep 400])
  | .ok data =>
    if data.status == "1" && !data.geocodes.isEmpty then
      (data.geocodes.head?, [Effect.httpGet address city, Effect.sleep 400])
    else
      (none, [Effect.httpGet address city, Effect.sleep 400])

/-- Python substring membership `needle in haystack` (`str.__contains__`). -/
def strIn (needle haystack : String) : Bool :=
  listContains needle.data haystack.data
where
  /-- does the second list start with the first? -/
  listStarts : List Char → List Char → Bool
    | [], _ => true
    | _ :: _, [] => false
    | a :: as, b :: bs => a == b && listStarts as bs
  /-- does the first list occur contiguously inside the second? -/
  listContains (needle : List Char) : List Char → Bool
    | [] => needle.isEmpty
    | b :: bs => listStarts needle (b :: bs) || listContains needle bs

/-- The `是否普惠` business rule of `parse_csv_file` (lines 149-156 of
`parse_data.py`), as a function of the cleaned `办园性质` text. -/
def csv_is_inclusive (office_nature : String) : String :=
  if strIn "民办" office_nature then
    if strIn "普惠性民办园" office_nature then "是" else "否"
  else "是"

/-- The `是否普惠` rule of the table branch of `parse_pdf_file`
(lines 216-223 of `parse_data.py`). -/
def pdf_table_is_inclusive (office_nature : String) : String :=
  if strIn "民办" office_nature then
    if strIn "普惠" office_nature || strIn "民办普惠" office_nature then "是" else "否"
  else "是"

/-- The `是否普惠` rule of the text-fallback branch of `parse_pdf_file`
(lines 285-292 of `parse_data.py`). -/
def pdf_text_is_inclusive (office_nature : String) : String :=
  if strIn "民办" office_nature then
    if strIn "普惠" office_nature then "是" else "否"
  else "是"

/-- ASCII decimal digit, the model of `\d` in the two fee regexes. -/
def isDigitChar (c : Char) : Bool := c.isDigit

/-- A character of the CJK unified-ideograph class `[一-鿿]`. -/
def isCJK (c : Char) : Bool := 0x4e00 ≤ c.toNat && c.toNat ≤ 0x9fff

/-- Maximal prefix of characters satisfying `p`, with the remainder:
what a greedy character-class repetition consumes. -/
def takeRun (p : Char → Bool) : List Char → List Char × List Char
  | [] => ([], [])
  | c :: rest =>
    if p c then
      let next := takeRun p rest
      (c :: next.1, next.2)
    else ([], c :: rest)

/-- Match `\d+(?:\.\d+)?` at the head of the list (greedy; nothing in
either regex follows the number, so no backtracking into it is ever
needed).  Returns the matched token and the remainder. -/
def matchNumber (l : List Char) : Option (List Char × List Char) :=
  let d := takeRun isDigitChar l
  if d.1.isEmpty then none
  else
    match d.2 with
    | c :: r2 =>
      if c = '.' then
        let d2 := takeRun isDigitChar r2
        if d2.1.isEmpty then some (d.1, d.2) else some (d.1 ++ '.' :: d2.1, d2.2)
      else some (d.1, d.2)
    | [] => some (d.1, d.2)

/-- Match `[:：]?\d+(?:\.\d+)?` at the head of the list.  The optional
colon is greedy; backtracking out of it cannot help, because the number
can never start at a colon. -/
def matchTail (l : List Char) : Option (List Char × List Char) :=
  match l with
  | [] => none
  | c :: r => if c == ':' || c == '：' then matchNumber r else matchNumber (c :: r)

/-- Attempt the suffix `班[:：]?\d+(?:\.\d+)?` of the class-fee pattern
with the literal `班` fixed at index `t`: group 1 is the first `t + 1`
characters, group 2 the number.  Returns both groups and the remainder
after the whole match. -/
def tryAt (s : List Char) (t : Nat) : Option ((List Char × List Char) × List Char) :=
  if s[t]? == some '班' then
    match matchTail (s.drop (t + 1)) with
    | some (fee, rem) => some ((s.take (t + 1), fee), rem)
    | none => none
  else none

/-- Backtracking of the greedy `[一-鿿]+` of the class-fee
pattern: try the position of the literal `班` from `t` characters
downwards; the repetition must consume at least one character. -/
def tryBreak (s : List Char) : Nat → Option ((List Char × List Char) × List Char)
  | 0 => none
  | t + 1 =>
    match tryAt s (t + 1) with
    | some r => some r
    | none => tryBreak s t

/-- Match the full pattern `([一-鿿]+班)[:：]?(\d+(?:\.\d+)?)`
of `parse_multi_class_fee` at the head of the list: the greedy CJK
repetition can reach at most the maximal CJK run, from which the
backtracking descends. -/
def matchClassFee (s : List Char) : Option ((List Char × List Char) × List Char) :=
  tryBreak s (takeRun isCJK s).1.length

/-- `re.findall` for the class-fee pattern: scan left to right, at each
position try a match; on success record both groups and resume after the
match, on failure advance one character.  Every match consumes at least
one character, so the input length is sufficient fuel. -/
def findallClassFee : Nat → List Char → List (List Char × List Char)
  | 0, _ => []
  | _ + 1, [] => []
  | fuel + 1, c :: rest =>
    match matchClassFee (c :: rest) with
    | some (groups, rem) => groups :: findallClassFee fuel rem
    | none => findallClassFee fuel rest

/-- Python `str.strip()`: remove leading and trailing whitespace. -/
def pyStrip (l : List Char) : List Char :=
  ((l.dropWhile Char.isWhitespace).reverse.dropWhile Char.isWhitespace).reverse

/-- `extract_pure_number` from `parse_data.py`: on non-empty, non-"None"
input, drop the currency/format/unit characters `¥ ￥ , 元 / 月 生` and
return the first `\d+(?:\.\d+)?` token found by `re.search`, or the
empty string when there is none. -/
def extract_pure_number (text : String) : String :=
  if text = "" || text == "None" then ""
  else
    let cleaned := text.data.filter
      (fun c => !(['¥', '￥', ',', '元', '/', '月', '生'].contains c))
    match searchNumber cleaned with
    | some num => String.mk num
    | none => ""
where
  /-- `re.search(r'(\d+(?:\.\d+)?)', ...)`: first match anywhere. -/
  searchNumber : List Char → Option (List Char)
    | [] => none
    | c :: rest =>
      match matchNumber (c :: rest) with
      | some (num, _) => some num
      | none => searchNumber rest

/-- One `{"class": ..., "fee": ...}` pair returned by
`parse_multi_class_fee`. -/
structure FeeClassPair where
  «class» : String
  fee : String
deriving DecidableEq, Repr

/-- `parse_multi_class_fee` from `parse_data.py`: strip `¥ ￥ ,`, find
all class-fee pattern matches; with two or more matches emit one stripped
and number-extracted pair per match, otherwise fall back to a single
pair with empty class and the first number extracted from the original
text. -/
def parse_multi_class_fee (fee_text : String) : List FeeClassPair :=
  if fee_text = "" then [{ «class» := "", fee := "" }]
  else
    let cleaned_text := fee_text.data.filter (fun c => !(['¥', '￥', ','].contains c))
    let found := findallClassFee cleaned_text.length cleaned_text
    if 1 < found.length then
      found.map (fun m =>
        { «class» := String.mk (pyStrip m.1),
          fee := extract_pure_number (String.mk (pyStrip m.2)) })
    else
      [{ «class» := "", fee := extract_pure_number fee_text }]

/-- One output record of `parse_data.py` (both the `base_data` dict and
the expanded entries share this shape).  Field names translate the
literal Chinese keys: `name` = 幼儿园名称, `nature` = 办园性质,
`inclusive` = 是否普惠, `scale` = 规模（班）, `address` = 幼儿园地址,
`fee` = 保教费收费标准（元/月/生）, `phone` = 幼儿园联系电话. -/
structure BaseData where
  name : String
  nature : String
  inclusive : String
  scale : String
  address : String
  fee : String
  phone : String
deriving DecidableEq, Repr

/-- `create_kindergarten_entries` from `parse_data.py`: one entity per
fee-class pair, copying the base record, overwriting the fee, and — when
the pair's class name is truthy (non-empty) — appending `（class）` to
the display name. -/
def create_kindergarten_entries (base_data : BaseData)
    (fee_classes : List FeeClassPair) : List BaseData :=
  fee_classes.map (fun fee_class =>
    let entry := { base_data with fee := fee_class.fee }
    if fee_class.«class» ≠ "" then
      { entry with name := entry.name ++ "（" ++ fee_class.«class» ++ "）" }
    else entry)

lemma listStarts_append (p q l : List Char)
    (h : strIn.listStarts (p ++ q) l = true) : strIn.listContains q l = true := by
  induction p generalizing l with
  | nil =>
    cases l with
    | nil =>
      cases q with
      | nil => rfl
      | cons c cs => simp [strIn.listStarts] at h
    | cons b bs =>
      simp only [List.nil_append] at h
      simp [strIn.listContains, h]
  | cons a as ih =>
    cases l with
    | nil => simp [strIn.listStarts] at h
    | cons b bs =>
      simp only [List.cons_append, strIn.listStarts, Bool.and_eq_true] at h
      have := ih bs h.2
      simp [strIn.listContains, this]

lemma listContains_append (p q l : List Char)
    (h : strIn.listContains (p ++ q) l = true) : strIn.listContains q l = true := by
  induction l with
  | nil =>
    simp only [strIn.listContains, List.isEmpty_eq_true, List.append_eq_nil] at h
    simp [strIn.listContains, h.1, h.2]
  | cons b bs ih =>
    simp only [strIn.listContains, Bool.or_eq_true] at h
    rcases h with h | h
    · exact listStarts_append p q (b :: bs) h
    · have := ih h
      simp [strIn.listContains, this]

lemma strIn_minban_puhui (n : String) (h : strIn "民办普惠" n = true) :
    strIn "普惠" n = true := by
  have h2 : strIn.listContains (['民', '办'] ++ ['普', '惠']) n.data = true := by
    simpa [strIn] using h
  simpa [strIn] using listContains_append ['民', '办'] ['普', '惠'] n.data h2

/-- Claim C1 counterexample: the fallback does not return "any result"
of the address or name query — Python's truthiness guards treat an
empty-dict result (reachable, since `get_geocode` returns
`data['geocodes'][0]` unguarded) as no result.  Here the address query
returns an (empty) result, yet the function returns `None` instead of
that result; likewise for a name query returning an empty dict. -/
theorem geocode_with_fallback_empty_result_falls_through :
    (fun (q _ : String) => if q = "开创大道" then some ([] : GeoEntry) else none)
        "开创大道" "广州" = some []
  ∧ geocode_with_fallback
      (fun q _ => if q = "开创大道" then some ([] : GeoEntry) else none)
      "汇星幼儿园" "开创大道" "广州" = none
  ∧ geocode_with_fallback (fun _ _ => some ([] : GeoEntry))
      "汇星幼儿园" "" "广州" = none := by
  decide

/-- Claim C1 (amended): `geocode_with_fallback` implements the tier
order under Python dict truthiness — (i) a name result of acceptable
level is returned immediately; (ii) otherwise, with a non-empty
address, a truthy (non-empty) address result is returned regardless of
its level; (iii) otherwise a truthy name result (even of unacceptable
level) is returned; (iv) otherwise — name result falsy and no truthy
address result obtained — the function returns `None`. -/
theorem geocode_with_fallback_tier_order (api : String → String → Option GeoEntry)
    (name address city : String) :
    (∀ r, api name city = some r → level_acceptable r = true →
        geocode_with_fallback api name address city = some r)
  ∧ (result_acceptable (api name city) = false → address ≠ "" →
      ∀ ar, api address city = some ar → ar ≠ [] →
        geocode_with_fallback api name address city = some ar)
  ∧ (result_acceptable (api name city) = false →
      address = "" ∨ py_truthy (api address city) = false →
      ∀ r, api name city = some r → r ≠ [] →
        geocode_with_fallback api name address city = some r)
  ∧ (py_truthy (api name city) = false →
      address = "" ∨ py_truthy (api address city) = false →
      geocode_with_fallback api name address city = none) := by
  refine ⟨?_, ?_, ?_, ?_⟩
  · intro r hr hl
    have hacc : result_acceptable (some r) = true := hl
    simp [geocode_with_fallback, hr, hacc]
  · intro hna haddr ar har hne
    have htr : py_truthy (some ar) = true := by
      simp [py_truthy, List.isEmpty_iff, hne]
    simp [geocode_with_fallback, hna, haddr, har, htr]
  · intro hna hor r hr hne
    have htr : py_truthy (some r) = true := by
      simp [py_truthy, List.isEmpty_iff, hne]
    rcases hor with h | h
    · simp [geocode_with_fallback, hna, h, hr, htr]
    · by_cases ha : address = ""
      · simp [geocode_with_fallback, hna, ha, hr, htr]
      · simp [geocode_with_fallback, hna, ha, h, hr, htr]
  · intro hn hor
    have hna : result_acceptable (api name city) = false := by
      cases hx : api name city with
      | none => rfl
      | some r =>
        rw [hx] at hn
        have hr0 : r = [] := by
          simpa [py_truthy, List.isEmpty_iff] using hn
        subst hr0
        rfl
    rcases hor with h | h
    · simp [geocode_with_fallback, hna, h, hn]
    · by_cases ha : address = ""
      · simp [geocode_with_fallback, hna, ha, hn]
      · simp [geocode_with_fallback, hna, ha, h, hn]

theorem geocode_with_fallback_tier_order_witness :
    geocode_with_fallback (fun q _ => if q = "汇星幼儿园" then some [("level", "兴趣点")] else none)
      "汇星幼儿园" "开创大道" "广州" = some [("level", "兴趣点")]
  ∧ geocode_with_fallback (fun q _ => if q = "开创大道" then some [("level", "道路")] else none)
      "汇星幼儿园" "开创大道" "广州" = some [("level", "道路")]
  ∧ geocode_with_fallback (fun q _ => if q = "汇星幼儿园" then some [("level", "区县")] else none)
      "汇星幼儿园" "开创大道" "广州" = some [("level", "区县")]
  ∧ geocode_with_fallback (fun _ _ => none) "汇星幼儿园" "" "广州" = none :=
  ⟨(geocode_with_fallback_tier_order _ "汇星幼儿园" "开创大道" "广州").1 _ (by decide) (by decide),
   (geocode_with_fallback_tier_order _ "汇星幼儿园" "开创大道" "广州").2.1 (by decide) (by decide)
     _ (by decide) (by decide),
   (geocode_with_fallback_tier_order _ "汇星幼儿园" "开创大道" "广州").2.2.1 (by decide)
     (Or.inr (by decide)) _ (by decide) (by decide),
   (geocode_with_fallback_tier_order _ "汇星幼儿园" "" "广州").2.2.2 (by decide) (Or.inl rfl)⟩

/-- Claim C2: parsing the mixed-format fee text
`成长班¥2,500.00国际班4000` yields exactly the two pairs
(成长班, 2500.00) and (国际班, 4000), in that order. -/
theorem parse_multi_class_fee_mixed_example :
    parse_multi_class_fee "成长班¥2,500.00国际班4000" =
      [{ «class» := "成长班", fee := "2500.00" },
       { «class» := "国际班", fee := "4000" }] := by
  decide

/-- Claim C3 counterexample: the three ingestion paths do not apply an
identical inclusiveness rule.  On the nature text `民办普惠园` the
tabular path yields `否` while both document paths yield `是` (and the
claimed rule — `是` only with the compound marker `普惠性民办园` —
requires `否` here). -/
theorem inclusiveness_rule_not_uniform :
    csv_is_inclusive "民办普惠园" = "否"
  ∧ pdf_table_is_inclusive "民办普惠园" = "是"
  ∧ pdf_text_is_inclusive "民办普惠园" = "是"
  ∧ strIn "民办" "民办普惠园" = true
  ∧ strIn "普惠性民办园" "民办普惠园" = false := by
  decide

/-- Claim C3 (amended): the two document paths agree everywhere and are
`是` iff the nature lacks `民办` or contains `普惠`; the tabular path
instead demands the compound marker `普惠性民办园` and is `否` exactly on
natures containing `民办` without that compound marker. -/
theorem inclusiveness_rules_characterized (n : String) :
    pdf_table_is_inclusive n = pdf_text_is_inclusive n
  ∧ (csv_is_inclusive n = "是" ↔ (strIn "民办" n = false ∨ strIn "普惠性民办园" n = true))
  ∧ (csv_is_inclusive n = "否" ↔ (strIn "民办" n = true ∧ strIn "普惠性民办园" n = false))
  ∧ (pdf_text_is_inclusive n = "是" ↔ (strIn "民办" n = false ∨ strIn "普惠" n = true))
  ∧ (pdf_text_is_inclusive n = "否" ↔ (strIn "民办" n = true ∧ strIn "普惠" n = false)) := by
  have agree : pdf_table_is_inclusive n = pdf_text_is_inclusive n := by
    unfold pdf_table_is_inclusive pdf_text_is_inclusive
    cases h2 : strIn "普惠" n with
    | true => simp [h2]
    | false =>
      have h3 : strIn "民办普惠" n = false := by
        cases h3 : strIn "民办普惠" n with
        | true => rw [strIn_minban_puhui n h3] at h2; cases h2
        | false => rfl
      simp [h2, h3]
  refine ⟨agree, ?_, ?_, ?_, ?_⟩
  · unfold csv_is_inclusive
    cases h1 : strIn "民办" n
    · simp [h1]
    · cases h2 : strIn "普惠性民办园" n <;> simp [h1, h2]
  · unfold csv_is_inclusive
    cases h1 : strIn "民办" n
    · simp [h1]
    · cases h2 : strIn "普惠性民办园" n <;> simp [h1, h2]
  · unfold pdf_text_is_inclusive
    cases h1 : strIn "民办" n
    · simp [h1]
    · cases h2 : strIn "普惠" n <;> simp [h1, h2]
  · unfold pdf_text_is_inclusive
    cases h1 : strIn "民办" n
    · simp [h1]
    · cases h2 : strIn "普惠" n <;> simp [h1, h2]

lemma cachedPrecisely_isSome {geocodes : Cache} {k : String}
    (h : cachedPrecisely geocodes k = true) : (dictGet geocodes k).isSome = true := by
  unfold cachedPrecisely at h
  cases hg : dictGet geocodes k with
  | none => rw [hg] at h; cases h
  | some e => simp [hg]

lemma kindergartens_step_precise {api : String → String → Option GeoEntry}
    {geocodes : Cache} {kg : Kindergarten}
    (h : cachedPrecisely geocodes kg.name = true) :
    geocode_kindergartens_step api geocodes kg = (geocodes, 0) := by
  by_cases hn : kg.name = ""
  · simp [geocode_kindergartens_step, hn]
  · simp [geocode_kindergartens_step, hn, h]

lemma kindergartens_run_precise (api : String → String → Option GeoEntry)
    (kgs : List Kindergarten) (geocodes : Cache)
    (hk : ∀ kg ∈ kgs, cachedPrecisely geocodes kg.name = true) :
    geocode_kindergartens_run api kgs geocodes = (geocodes, 0) := by
  induction kgs with
  | nil => rfl
  | cons kg rest ih =>
    have h1 := hk kg (by simp)
    have hrest := ih (fun kg2 hm => hk kg2 (by simp [hm]))
    simp [geocode_kindergartens_run, kindergartens_step_precise h1, hrest]

lemma home_loop_skip (api : String → String → Option GeoEntry)
    (addrs : List String) (geocodes : Cache)
    (hh : ∀ a ∈ addrs, (dictGet geocodes a).isSome = true) :
    geocode_home_addresses_loop api addrs geocodes = (geocodes, 0) := by
  induction addrs with
  | nil => rfl
  | cons a rest ih =>
    have h1 := hh a (by simp)
    have hrest := ih (fun a2 hm => hh a2 (by simp [hm]))
    simp [geocode_home_addresses_loop, geocode_home_addresses_step, h1, hrest]

/-- Claim C4: when every kindergarten name and every home address is
already cached at an acceptable precision level, re-running both
resolution passes performs zero external geocoding calls and returns the
cache mapping unchanged. -/
theorem resolution_idempotent_on_precise_cache (api : String → String → Option GeoEntry)
    (kgs : List Kindergarten) (geocodes : Cache)
    (hk : ∀ kg ∈ kgs, cachedPrecisely geocodes kg.name = true)
    (hh : ∀ a ∈ HOME_ADDRESSES, cachedPrecisely geocodes a = true) :
    geocode_kindergartens_run api kgs geocodes = (geocodes, 0)
  ∧ geocode_home_addresses_run api geocodes = (geocodes, 0) := by
  refine ⟨kindergartens_run_precise api kgs geocodes hk, ?_⟩
  exact home_loop_skip api HOME_ADDRESSES geocodes
    (fun a ha => cachedPrecisely_isSome (hh a ha))

theorem resolution_idempotent_on_precise_cache_witness :
    geocode_kindergartens_run (fun _ _ => none) [⟨"东方红幼儿园", "开泰大道100号"⟩]
      [("东方红幼儿园", [("province", "广东省"), ("city", "广州市"), ("district", "黄埔区"),
          ("location", "113.48,23.10"), ("level", "兴趣点")]),
       ("越秀·保利爱特城22栋", [("location", "113.51,23.12"), ("level", "门牌号")]),
       ("中海誉东花园A7栋", [("location", "113.52,23.13"), ("level", "兴趣点")])] =
      ([("东方红幼儿园", [("province", "广东省"), ("city", "广州市"), ("district", "黄埔区"),
          ("location", "113.48,23.10"), ("level", "兴趣点")]),
       ("越秀·保利爱特城22栋", [("location", "113.51,23.12"), ("level", "门牌号")]),
       ("中海誉东花园A7栋", [("location", "113.52,23.13"), ("level", "兴趣点")])], 0)
  ∧ geocode_home_addresses_run (fun _ _ => none)
      [("东方红幼儿园", [("province", "广东省"), ("city", "广州市"), ("district", "黄埔区"),
          ("location", "113.48,23.10"), ("level", "兴趣点")]),
       ("越秀·保利爱特城22栋", [("location", "113.51,23.12"), ("level", "门牌号")]),
       ("中海誉东花园A7栋", [("location", "113.52,23.13"), ("level", "兴趣点")])] =
      ([("东方红幼儿园", [("province", "广东省"), ("city", "广州市"), ("district", "黄埔区"),
          ("location", "113.48,23.10"), ("level", "兴趣点")]),
       ("越秀·保利爱特城22栋", [("location", "113.51,23.12"), ("level", "门牌号")]),
       ("中海誉东花园A7栋", [("location", "113.52,23.13"), ("level", "兴趣点")])], 0) :=
  resolution_idempotent_on_precise_cache (fun _ _ => none)
    [⟨"东方红幼儿园", "开泰大道100号"⟩] _ (by decide) (by decide)

/-- Claim C10: a home address with any cache entry is skipped — no
external call, cache untouched — whatever the entry's precision level,
whereas a kindergarten whose truthy cached entry has an unacceptable
level is re-resolved, costing at least one external call. -/
theorem home_any_cache_skips_kindergarten_requeries
    (api : String → String → Option GeoEntry) (geocodes : Cache)
    (address : String) (kg : Kindergarten)
    (h1 : (dictGet geocodes address).isSome = true)
    (h2 : kg.name ≠ "")
    (h3 : cachedImprecisely geocodes kg.name = true) :
    geocode_home_addresses_step api geocodes address = (geocodes, 0)
  ∧ 1 ≤ (geocode_kindergartens_step api geocodes kg).2 := by
  constructor
  · simp [geocode_home_addresses_step, h1]
  · have hnp : cachedPrecisely geocodes kg.name = false := by
      unfold cachedImprecisely at h3
      unfold cachedPrecisely
      cases hg : dictGet geocodes kg.name with
      | none => rfl
      | some e =>
        rw [hg] at h3
        simp only [Bool.and_eq_true, Bool.not_eq_true'] at h3
        simp only [h3.2, Bool.and_false]
    have hc : 1 ≤ geocode_with_fallback_calls api kg.name kg.address "广州" := by
      unfold geocode_with_fallback_calls
      split
      · omega
      · split <;> omega
    cases hres : geocode_with_fallback api kg.name kg.address "广州" with
    | none => simpa [geocode_kindergartens_step, h2, hnp, hres] using hc
    | some r => simpa [geocode_kindergartens_step, h2, hnp, hres] using hc

theorem home_any_cache_skips_kindergarten_requeries_witness :
    geocode_home_addresses_step (fun _ _ => none)
      [("越秀·保利爱特城22栋", [("location", "113.51,23.12"), ("level", "镇")]),
       ("东方红幼儿园", [("location", "113.48,23.10"), ("level", "区县")])]
      "越秀·保利爱特城22栋" =
      ([("越秀·保利爱特城22栋", [("location", "113.51,23.12"), ("level", "镇")]),
        ("东方红幼儿园", [("location", "113.48,23.10"), ("level", "区县")])], 0)
  ∧ 1 ≤ (geocode_kindergartens_step (fun _ _ => none)
      [("越秀·保利爱特城22栋", [("location", "113.51,23.12"), ("level", "镇")]),
       ("东方红幼儿园", [("location", "113.48,23.10"), ("level", "区县")])]
      ⟨"东方红幼儿园", "开泰大道100号"⟩).2 :=
  home_any_cache_skips_kindergarten_requeries (fun _ _ => none) _ _ _
    (by decide) (by decide) (by decide)

/-- Claim C6 counterexample: `save_geocodes` does not project every
entry of the given mapping to the five canonical fields — an entry that
lacks a `location` key is written back verbatim, foreign fields
included. -/
theorem save_geocodes_retains_foreign_fields :
    save_geocodes [("外部条目", [("foo", "bar")])] = [("外部条目", [("foo", "bar")])]
  ∧ "foo" ∈ (([("foo", "bar")] : GeoEntry).map Prod.fst)
  ∧ "foo" ∉ ["province", "city", "district", "location", "level"] := by
  decide

/-- Claim C6 (amended): every entry written by `save_geocodes` either
consists of exactly the five canonical fields (when the source entry
holds a `location` key) or is the unprojected original without a
`location` key; and a saved cache is a fixed point of load followed by
save. -/
theorem save_geocodes_projection_fixed_point (geocodes : Cache) :
    (∀ kv ∈ save_geocodes geocodes,
        kv.2.map Prod.fst = ["province", "city", "district", "location", "level"]
      ∨ (kv ∈ geocodes ∧ (dictGet kv.2 "location").isSome = false))
  ∧ save_geocodes (load_existing_geocodes (some (save_geocodes geocodes))) =
      save_geocodes geocodes := by
  constructor
  · intro kv hkv
    rw [save_geocodes, List.mem_map] at hkv
    obtain ⟨orig, horig, rfl⟩ := hkv
    by_cases h : (dictGet orig.2 "location").isSome = true
    · left
      simp [save_entry, h, clean_entry]
    · have hb : save_entry orig = orig := by
        simp only [save_entry, Bool.not_eq_true] at h ⊢
        simp [h]
      rw [hb]
      right
      refine ⟨horig, ?_⟩
      simpa using h
  · show save_geocodes (save_geocodes geocodes) = save_geocodes geocodes
    have hidem : ∀ kv : String × GeoEntry, save_entry (save_entry kv) = save_entry kv := by
      intro kv
      by_cases h : (dictGet kv.2 "location").isSome = true
      · have h1 : save_entry kv = (kv.1, clean_entry kv.2) := by
          simp [save_entry, h]
        rw [h1]
        have h2 : (dictGet (clean_entry kv.2) "location").isSome = true := rfl
        have h3 : clean_entry (clean_entry kv.2) = clean_entry kv.2 := rfl
        simp [save_entry, h2, h3]
      · have h1 : save_entry kv = kv := by
          simp only [save_entry, Bool.not_eq_true] at h ⊢
          simp [h]
        rw [h1, h1]
    simp only [save_geocodes, List.map_map]
    exact List.map_congr_left (fun kv _ => hidem kv)

theorem save_geocodes_projection_fixed_point_witness :
    ((("汇星幼儿园",
        [("province", "广东省"), ("city", "广州市"), ("district", "黄埔区"),
         ("location", "113.48,23.10"), ("level", "兴趣点")]) : String × GeoEntry).2.map Prod.fst
          = ["province", "city", "district", "location", "level"]
      ∨ ((("汇星幼儿园",
            [("province", "广东省"), ("city", "广州市"), ("district", "黄埔区"),
             ("location", "113.48,23.10"), ("level", "兴趣点")]) : String × GeoEntry)
            ∈ ([("汇星幼儿园",
                 [("formatted_address", "广州市黄埔区汇星幼儿园"), ("province", "广东省"),
                  ("city", "广州市"), ("district", "黄埔区"),
                  ("location", "113.48,23.10"), ("level", "兴趣点")])] : Cache)
          ∧ (dictGet ((("汇星幼儿园",
              [("province", "广东省"), ("city", "广州市"), ("district", "黄埔区"),
               ("location", "113.48,23.10"), ("level", "兴趣点")]) : String × GeoEntry).2)
              "location").isSome = false))
  ∧ save_geocodes (load_existing_geocodes (some (save_geocodes
      [("汇星幼儿园",
        [("formatted_address", "广州市黄埔区汇星幼儿园"), ("province", "广东省"),
         ("city", "广州市"), ("district", "黄埔区"),
         ("location", "113.48,23.10"), ("level", "兴趣点")])]))) =
      save_geocodes
        [("汇星幼儿园",
          [("formatted_address", "广州市黄埔区汇星幼儿园"), ("province", "广东省"),
           ("city", "广州市"), ("district", "黄埔区"),
           ("location", "113.48,23.10"), ("level", "兴趣点")])] :=
  ⟨(save_geocodes_projection_fixed_point _).1 _ (by decide),
   (save_geocodes_projection_fixed_point _).2⟩

lemma string_eq_of_data_eq {a b : String} (h : a.data = b.data) : a = b := by
  cases a
  cases b
  exact congrArg String.mk h

lemma append_class_ne_self (n c : String) :
    n ≠ n ++ "（" ++ c ++ "）" := by
  intro heq
  have hd := congrArg String.data heq
  simp only [String.data_append] at hd
  have hlen := congrArg List.length hd
  simp only [List.length_append, List.length_cons, List.length_nil] at hlen
  omega

lemma append_class_injective (n : String) {c1 c2 : String}
    (h : n ++ "（" ++ c1 ++ "）" = n ++ "（" ++ c2 ++ "）") : c1 = c2 := by
  have hd := congrArg String.data h
  simp only [String.data_append, List.append_assoc] at hd
  have h1 := List.append_cancel_left hd
  have h2 := List.append_cancel_left h1
  exact string_eq_of_data_eq (List.append_cancel_right h2)

lemma class_suffix_name_injective (n : String) {c1 c2 : String} (hne : c1 ≠ c2) :
    (if c1 ≠ "" then n ++ "（" ++ c1 ++ "）" else n) ≠
      (if c2 ≠ "" then n ++ "（" ++ c2 ++ "）" else n) := by
  by_cases h1 : c1 = ""
  · by_cases h2 : c2 = ""
    · exact absurd (h1.trans h2.symm) hne
    · simp only [h1, ne_eq, not_true_eq_false, if_false, h2, not_false_eq_true, if_true]
      exact append_class_ne_self n c2
  · by_cases h2 : c2 = ""
    · simp only [h2, ne_eq, not_true_eq_false, if_false, h1, not_false_eq_true, if_true]
      exact fun heq => append_class_ne_self n c1 heq.symm
    · simp only [ne_eq, h1, not_false_eq_true, if_true, h2]
      exact fun heq => hne (append_class_injective n heq)

/-- Claim C5 counterexample: two *distinct* fee-class pairs that share a
class name (differing only in fee) produce entities with *identical*
display names, refuting "when N>1 with distinct pairs every entity's
name differs". -/
theorem create_entries_distinct_pairs_equal_names :
    ({ «class» := "成长班", fee := "2500" } : FeeClassPair) ≠
      { «class» := "成长班", fee := "4000" }
  ∧ (create_kindergarten_entries
        { name := "新苗幼儿园", nature := "民办", inclusive := "否", scale := "6",
          address := "黄埔区开创大道", fee := "成长班2500成长班4000", phone := "020-82111111" }
        [{ «class» := "成长班", fee := "2500" }, { «class» := "成长班", fee := "4000" }]).map
        BaseData.name
      = ["新苗幼儿园（成长班）", "新苗幼儿园（成长班）"] := by
  decide

/-- Claim C5 (amended): expansion yields exactly one entity per pair, in
order; each entity carries its pair's fee, copies every other field
unchanged, and appends `（class）` to the name exactly when the pair's
class is non-empty; and entities of pairs with *distinct class names*
have distinct names (distinct pairs sharing a class name collide). -/
theorem create_kindergarten_entries_spec (base : BaseData)
    (fee_classes : List FeeClassPair) :
    (create_kindergarten_entries base fee_classes).length = fee_classes.length
  ∧ (∀ (i : Nat) (p : FeeClassPair), fee_classes[i]? = some p →
      (create_kindergarten_entries base fee_classes)[i]? =
        some { base with
               fee := p.fee,
               name := if p.«class» ≠ "" then base.name ++ "（" ++ p.«class» ++ "）"
                       else base.name })
  ∧ (∀ (i j : Nat) (p q : FeeClassPair) (e1 e2 : BaseData),
      fee_classes[i]? = some p → fee_classes[j]? = some q →
      (create_kindergarten_entries base fee_classes)[i]? = some e1 →
      (create_kindergarten_entries base fee_classes)[j]? = some e2 →
      p.«class» ≠ q.«class» → e1.name ≠ e2.name) := by
  have hget : ∀ (i : Nat) (p : FeeClassPair), fee_classes[i]? = some p →
      (create_kindergarten_entries base fee_classes)[i]? =
        some { base with
               fee := p.fee,
               name := if p.«class» ≠ "" then base.name ++ "（" ++ p.«class» ++ "）"
                       else base.name } := by
    intro i p hp
    rw [create_kindergarten_entries, List.getElem?_map, hp]
    by_cases hc : p.«class» = ""
    · simp [hc]
    · simp [hc]
  refine ⟨by simp [create_kindergarten_entries], hget, ?_⟩
  intro i j p q e1 e2 hp hq he1 he2 hpq
  rw [hget i p hp] at he1
  rw [hget j q hq] at he2
  have h1 := Option.some.inj he1
  have h2 := Option.some.inj he2
  have hn1 : e1.name = (if p.«class» ≠ "" then base.name ++ "（" ++ p.«class» ++ "）"
      else base.name) := by rw [← h1]
  have hn2 : e2.name = (if q.«class» ≠ "" then base.name ++ "（" ++ q.«class» ++ "）"
      else base.name) := by rw [← h2]
  rw [hn1, hn2]
  exact class_suffix_name_injective base.name hpq

theorem create_kindergarten_entries_spec_witness :
    (create_kindergarten_entries
        { name := "新苗幼儿园", nature := "民办", inclusive := "否", scale := "6",
          address := "黄埔区开创大道", fee := "成长班2500国际班4000", phone := "020-82111111" }
        [{ «class» := "成长班", fee := "2500" }, { «class» := "国际班", fee := "4000" }]).length
      = ([{ «class» := "成长班", fee := "2500" },
          { «class» := "国际班", fee := "4000" }] : List FeeClassPair).length
  ∧ (create_kindergarten_entries
        { name := "新苗幼儿园", nature := "民办", inclusive := "否", scale := "6",
          address := "黄埔区开创大道", fee := "成长班2500国际班4000", phone := "020-82111111" }
        [{ «class» := "成长班", fee := "2500" }, { «class» := "国际班", fee := "4000" }])[0]?
      = some { name := "新苗幼儿园（成长班）", nature := "民办", inclusive := "否", scale := "6",
               address := "黄埔区开创大道", fee := "2500", phone := "020-82111111" }
  ∧ ("新苗幼儿园（成长班）" : String) ≠ "新苗幼儿园（国际班）" := by
  have h := create_kindergarten_entries_spec
    { name := "新苗幼儿园", nature := "民办", inclusive := "否", scale := "6",
      address := "黄埔区开创大道", fee := "成长班2500国际班4000", phone := "020-82111111" }
    [{ «class» := "成长班", fee := "2500" }, { «class» := "国际班", fee := "4000" }]
  refine ⟨h.1, ?_, ?_⟩
  · have h0 := h.2.1 0 { «class» := "成长班", fee := "2500" } rfl
    rw [h0]
    decide
  · have := h.2.2 0 1 { «class» := "成长班", fee := "2500" } { «class» := "国际班", fee := "4000" }
      { name := "新苗幼儿园（成长班）", nature := "民办", inclusive := "否", scale := "6",
        address := "黄埔区开创大道", fee := "2500", phone := "020-82111111" }
      { name := "新苗幼儿园（国际班）", nature := "民办", inclusive := "否", scale := "6",
        address := "黄埔区开创大道", fee := "4000", phone := "020-82111111" }
      rfl rfl (by decide) (by decide) (by decide)
    exact this

/-- Claim C9: every execution path of `get_geocode` — successful
result, non-success API status, empty candidate array, and raised
exception alike — performs the HTTP call and then the 400 ms suspension
before returning control. -/
theorem get_geocode_sleep_after_call (resp : Except String AmapResponse)
    (address city : String) :
    (get_geocode_run resp address city).2 =
      [Effect.httpGet address city, Effect.sleep 400] := by
  cases resp with
  | error e => rfl
  | ok data =>
    cases h : (data.status == "1" && !data.geocodes.isEmpty) <;>
      simp [get_geocode_run, h]

end School
